import Mathlib

/-!
Shallow embedding of the `websocket-chat` backend (`src/backend/src/index.ts`)
and the frontend-facing contracts described in the specification.

JavaScript runtime values that the handlers inspect are modelled by `JSValue`;
JS strings are modelled by Lean `String` (lengths counted in characters),
timestamps by `Nat` milliseconds, and the signed-cookie machinery by an
abstract `unsign` function supplied as a parameter.
-/

set_option maxHeartbeats 1000000

namespace Chat

/-- A JavaScript value as far as the validators inspect it: `typeof x`
distinguishes strings from everything else, and `undefined`/`null` are
checked for explicitly. -/
inductive JSValue where
  | undefined
  | null
  | str (s : String)
  | num (n : Int)
  | boolean (b : Bool)
  | object
deriving Repr, DecidableEq

/-- JavaScript `String.prototype.trim`: drop leading and trailing whitespace.
Modelled over the character list so that it evaluates inside the kernel. -/
def jsTrim (s : String) : String :=
  String.mk (((s.data.dropWhile Char.isWhitespace).reverse.dropWhile
    Char.isWhitespace).reverse)

/-- JavaScript `String.prototype.length`, modelled as the character count. -/
def jsLength (s : String) : Nat :=
  s.data.length

/-- `MESSAGE_MAX_LENGTH` from `index.ts`. -/
def MESSAGE_MAX_LENGTH : Nat := 1000

/-- `NAME_MAX_LENGTH` from `index.ts`. -/
def NAME_MAX_LENGTH : Nat := 64

/-- `HISTORY_MAX_LIMIT` from `index.ts`. -/
def HISTORY_MAX_LIMIT : Nat := 200

/-- Result type of the two validators: `{ok:false, message}` or
`{ok:true, value}` in the source. -/
inductive VResult where
  | err (message : String)
  | ok (value : String)
deriving Repr, DecidableEq

/-- `VResult.isOk` mirrors reading the `ok` field. -/
def VResult.isOk : VResult → Bool
  | .err _ => false
  | .ok _ => true

/-- `trimAndValidateText` from `index.ts` (lines 157-171): non-strings are
rejected, the string is trimmed, empty and over-1000-character results are
rejected, otherwise the trimmed text is returned. -/
def trimAndValidateText (rawText : JSValue) : VResult :=
  match rawText with
  | .str s =>
    let text := jsTrim s
    if jsLength text = 0 then
      .err "text cannot be empty"
    else if jsLength text > MESSAGE_MAX_LENGTH then
      .err "text must be <= 1000 characters"
    else
      .ok text
  | _ => .err "text must be a string"

/-- `trimAndValidateDisplayName` from `index.ts` (lines 173-192):
`undefined`/`null` and blank strings fall back to the username, other
non-strings are rejected, over-64-character trimmed names are rejected,
otherwise the trimmed name is returned. -/
def trimAndValidateDisplayName (rawDisplayName : JSValue) (fallbackUsername : String) :
    VResult :=
  match rawDisplayName with
  | .undefined => .ok fallbackUsername
  | .null => .ok fallbackUsername
  | .str s =>
    let displayName := jsTrim s
    if jsLength displayName = 0 then
      .ok fallbackUsername
    else if jsLength displayName > NAME_MAX_LENGTH then
      .err "displayName must be <= 64 characters"
    else
      .ok displayName
  | _ => .err "displayName must be a string"

/-- `adjectivePool` from `index.ts`. -/
def adjectivePool : List String :=
  ["Silent", "Swift", "Mellow", "Curious", "Bright",
   "Calm", "Clever", "Gentle", "Brisk", "Kind"]

/-- `nounPool` from `index.ts`. -/
def nounPool : List String :=
  ["River", "Panda", "Cloud", "Falcon", "Leaf",
   "Otter", "Comet", "Maple", "Sparrow", "Fox"]

/-- Decimal digit characters of `n`, most significant first, by structural
recursion on a fuel bound (so that it evaluates inside the kernel). -/
def natToCharsAux (fuel n : Nat) : List Char :=
  match fuel with
  | 0 => []
  | f + 1 =>
    if n < 10 then [Nat.digitChar n]
    else natToCharsAux f (n / 10) ++ [Nat.digitChar (n % 10)]

/-- JavaScript `Number.prototype.toString()` on a natural number: the decimal
digit characters, most significant first. `n + 1` units of fuel always
suffice, since `n` has at most `n + 1` digits. -/
def natToChars (n : Nat) : List Char :=
  natToCharsAux (n + 1) n

/-- JavaScript number-to-string conversion for naturals. -/
def natToString (n : Nat) : String :=
  String.mk (natToChars n)

/-- JavaScript `String.prototype.padStart(len, c)`. -/
def padStart (s : String) (len : Nat) (c : Char) : String :=
  String.mk (List.replicate (len - jsLength s) c ++ s.data)

/-- `generateUsername` from `index.ts` (lines 125-133). `Math.random()` is
modelled by three externally supplied naturals `a`, `n`, `sfx`: the source
draws `Math.floor(Math.random() * pool.length)`, a uniform in-range index,
modelled here as `a % pool.length` (resp. `n`, and `sfx % 10000` for the
suffix draw `Math.floor(Math.random() * 10000)`). -/
def generateUsername (a n sfx : Nat) : String :=
  let adjective := adjectivePool.get ⟨a % adjectivePool.length, Nat.mod_lt a (by decide)⟩
  let noun := nounPool.get ⟨n % nounPool.length, Nat.mod_lt n (by decide)⟩
  let suffix := padStart (natToString (sfx % 10000)) 4 '0'
  adjective ++ "-" ++ noun ++ "-" ++ suffix

/-- Result of `request.unsignCookie` (`@fastify/cookie`): a validity flag and
the recovered value (`none` models JS `null`). -/
structure UnsignResult where
  valid : Bool
  value : Option String
deriving Repr, DecidableEq

/-- `ensureIdentity` from `index.ts` (lines 135-155). The cookie jar is
modelled by the optional raw cookie string, signature verification by the
`unsign` parameter, and the minting randomness by `a`, `n`, `sfx`. Returns
the resolved username together with the newly issued cookie value
(`none` when no cookie is set). -/
def ensureIdentity (unsign : String → UnsignResult) (cookie : Option String)
    (a n sfx : Nat) : String × Option String :=
  let minted :=
    let username := generateUsername a n sfx
    (username, some username)
  match cookie with
  | some signedCookie =>
    if jsLength signedCookie > 0 then
      let r := unsign signedCookie
      if r.valid then
        match r.value with
        | some v => if jsLength v > 0 then (v, none) else minted
        | none => minted
      else minted
    else minted
  | none => minted

/-- Rate-limiter configuration: `createRateLimiter(windowMs, max)` in
`index.ts` line 70 is called with `RATE_LIMIT_WINDOW_MS` and
`RATE_LIMIT_MAX`. -/
structure RateLimiter where
  windowMs : Nat
  maxCalls : Nat
deriving Repr, DecidableEq

/-- Per-key fixed-window record (spec §3 `RateWindow`): a window-start
timestamp and a count of admitted calls in that window. -/
structure RateWindow where
  windowStart : Nat
  count : Nat
deriving Repr, DecidableEq

/-- The limiter's mutable map from keys to their current window record. -/
def RLState (K : Type) : Type :=
  K → Option RateWindow

/-- The limiter's initial state: no key has a window yet. -/
def RLState.empty (K : Type) : RLState K :=
  fun _ => none

/-- Point update of the key map. -/
def RLState.set {K : Type} [DecidableEq K] (s : RLState K) (k : K) (e : RateWindow) :
    RLState K :=
  fun q => if q = k then some e else s q

/-- Modelled from the spec: the repository's `createRateLimiter` lives in
`src/backend/src/rate-limit.ts`, which is not part of the provided sources;
only its call site (`index.ts` line 70) and uses (`rateLimiter.check(key)`,
line 240) are. Spec §4.2: fixed-window counting — a key's first call (or a
call observed after the window elapsed) starts a new window with count 1 and
is admitted; a call inside the current window is admitted iff fewer than
`maxCalls` calls were already admitted in it; rejected calls mutate
nothing. `now` is the observation time in milliseconds. -/
def RateLimiter.check {K : Type} [DecidableEq K] (rl : RateLimiter) (s : RLState K)
    (k : K) (now : Nat) : Bool × RLState K :=
  match s k with
  | none => (true, s.set k ⟨now, 1⟩)
  | some e =>
    if e.windowStart + rl.windowMs ≤ now then
      (true, s.set k ⟨now, 1⟩)
    else if e.count < rl.maxCalls then
      (true, s.set k ⟨e.windowStart, e.count + 1⟩)
    else
      (false, s)

/-- Run a sequence of `check` calls (key, time) from a state, collecting the
admission verdicts and the final state. -/
def RateLimiter.run {K : Type} [DecidableEq K] (rl : RateLimiter) (s : RLState K) :
    List (K × Nat) → List Bool × RLState K
  | [] => ([], s)
  | c :: rest =>
    let step := rl.check s c.1 c.2
    let tail := rl.run step.2 rest
    (step.1 :: tail.1, tail.2)

/-- A row of the `message` table as Prisma returns it: `displayName` is a
nullable column; `createdAt` is the store-assigned timestamp, modelled as a
natural number (the DTO keeps the same number, standing for its ISO-8601
rendering). -/
structure DbMessage where
  id : String
  text : String
  username : String
  displayName : Option String
  createdAt : Nat
deriving Repr, DecidableEq

/-- The `MessageDTO` wire shape from `index.ts`. -/
structure MessageDTO where
  id : String
  text : String
  username : String
  displayName : String
  createdAt : Nat
deriving Repr, DecidableEq

/-- `normalizeMessage` from `index.ts` (lines 105-119): a null display name
falls back to the username. -/
def normalizeMessage (m : DbMessage) : MessageDTO :=
  { id := m.id, text := m.text, username := m.username,
    displayName := m.displayName.getD m.username, createdAt := m.createdAt }

/-- `getClientKey` from `index.ts` (lines 121-123). -/
def getClientKey (ipAddress username : String) : String :=
  ipAddress ++ ":" ++ username

/-- The parsed request body of `POST /messages`: either no usable object
(body absent, null, or not an object — every field access through
`request.body?.` then yields `undefined`), or an object whose `text` and
`displayName` fields are the given JS values (`undefined` when the field is
missing). -/
inductive ReqBody where
  | missing
  | obj (text displayName : JSValue)
deriving Repr, DecidableEq

/-- `request.body?.text`. -/
def ReqBody.textField : ReqBody → JSValue
  | .missing => .undefined
  | .obj t _ => t

/-- `request.body?.displayName`. -/
def ReqBody.displayNameField : ReqBody → JSValue
  | .missing => .undefined
  | .obj _ d => d

/-- Outcome of the awaited `prisma.message.create` call: the store either
assigns a creation timestamp and succeeds, or throws. -/
inductive StoreOutcome where
  | ok (createdAt : Nat)
  | failure
deriving Repr, DecidableEq

/-- The pipeline stages of the `POST /messages` handler, recorded in the
order the handler reaches them. -/
inductive Stage where
  | identity
  | validation
  | rateLimit
  | append
  | publish
deriving Repr, DecidableEq

/-- Everything observable about one `POST /messages` request: the HTTP
response (status, error kind/message, DTO body), the cookie issued by
identity resolution, the list of `messages:new` events emitted, the rate
limiter's state afterwards, and the trace of stages the handler reached. -/
structure PostResult (K : Type) where
  status : Nat
  errorKind : Option String
  errorMessage : Option String
  dto : Option MessageDTO
  setCookie : Option String
  events : List MessageDTO
  rlState : RLState K
  trace : List Stage

/-- The `POST /messages` handler from `index.ts` (lines 226-264).
Inputs: limiter configuration `rl` and state `s`, the cookie machinery
(`unsign`, `cookie`), minting randomness `a n sfx`, the parsed `body`,
`request.ip` (`none` models a missing address, replaced by "unknown"), the
`randomUUID()` draw `uuid`, the current time `now`, and the store's
response `store` to the append that would be issued. -/
def postMessages (rl : RateLimiter) (unsign : String → UnsignResult)
    (cookie : Option String) (a n sfx : Nat) (body : ReqBody)
    (ip : Option String) (uuid : String) (now : Nat)
    (store : StoreOutcome) (s : RLState String) : PostResult String :=
  let idres := ensureIdentity unsign cookie a n sfx
  let username := idres.1
  match trimAndValidateText body.textField with
  | .err m =>
    { status := 400, errorKind := some "validation_error", errorMessage := some m,
      dto := none, setCookie := idres.2, events := [], rlState := s,
      trace := [.identity, .validation] }
  | .ok text =>
    match trimAndValidateDisplayName body.displayNameField username with
    | .err m =>
      { status := 400, errorKind := some "validation_error", errorMessage := some m,
        dto := none, setCookie := idres.2, events := [], rlState := s,
        trace := [.identity, .validation] }
    | .ok displayName =>
      let clientIp := ip.getD "unknown"
      let checked := rl.check s (getClientKey clientIp username) now
      if checked.1 then
        match store with
        | .failure =>
          { status := 500, errorKind := some "server_error",
            errorMessage := some "Could not persist message",
            dto := none, setCookie := idres.2, events := [], rlState := checked.2,
            trace := [.identity, .validation, .rateLimit, .append] }
        | .ok createdAt =>
          let payload := normalizeMessage
            { id := uuid, text := text, username := username,
              displayName := some displayName, createdAt := createdAt }
          { status := 201, errorKind := none, errorMessage := none,
            dto := some payload, setCookie := idres.2, events := [payload],
            rlState := checked.2,
            trace := [.identity, .validation, .rateLimit, .append, .publish] }
      else
        { status := 429, errorKind := some "rate_limit_exceeded",
          errorMessage := some "Too many messages, slow down.",
          dto := none, setCookie := idres.2, events := [], rlState := checked.2,
          trace := [.identity, .validation, .rateLimit] }

/-- JavaScript `Number.parseInt(s, 10)`: skip leading whitespace, read an
optional sign and then the longest digit prefix; `none` models `NaN`. -/
def parseIntJS (s : String) : Option Int :=
  let cs := s.data.dropWhile Char.isWhitespace
  let signed : Int × List Char :=
    match cs with
    | '-' :: rest => (-1, rest)
    | '+' :: rest => (1, rest)
    | _ => (1, cs)
  let digits := signed.2.takeWhile Char.isDigit
  if digits.isEmpty then none
  else some (signed.1 * ((digits.foldl (fun acc c => acc * 10 + (c.toNat - 48)) 0 : Nat) : Int))

/-- The `limit` computation of the `GET /messages` handler (`index.ts` lines
207-210): parse the query parameter (defaulting to the string rendering of
`HISTORY_MAX_LIMIT`), then clamp finite values to `[1, 200]` and replace
`NaN` by 200. -/
def computeLimit (q : Option String) : Nat :=
  match parseIntJS (q.getD (natToString HISTORY_MAX_LIMIT)) with
  | none => HISTORY_MAX_LIMIT
  | some r => Int.toNat (max 1 (min (HISTORY_MAX_LIMIT : Int) r))

/-- `prisma.message.findMany({orderBy: {createdAt: "desc"}, take: limit})`:
the table sorted most-recent-first, truncated to `limit` rows. -/
def recentDesc (db : List DbMessage) (limit : Nat) : List DbMessage :=
  (List.insertionSort (fun x y => y.createdAt ≤ x.createdAt) db).take limit

/-- The `GET /messages` handler body (`index.ts` lines 204-219): fetch the
most recent `limit` rows, reverse them to oldest-first, and normalize. -/
def getMessages (db : List DbMessage) (q : Option String) : List MessageDTO :=
  ((recentDesc db (computeLimit q)).reverse).map normalizeMessage

example : trimAndValidateText (.str "  hi  ") = .ok "hi" := by decide
example : trimAndValidateText (.str "   ") = .err "text cannot be empty" := by decide
example : trimAndValidateText .undefined = .err "text must be a string" := by decide
example : trimAndValidateDisplayName .null "Swift-Otter-0482" = .ok "Swift-Otter-0482" := by
  decide
example : trimAndValidateDisplayName (.str " Bob ") "u" = .ok "Bob" := by decide

/-- C2: `trimAndValidateText` errors on non-strings, on strings that trim to
empty, and on trimmed lengths above 1000; otherwise it returns exactly the
trimmed string. Hence it accepts iff the trimmed length is in [1, 1000], and
an accepted already-trimmed string is returned unchanged. -/
theorem trimAndValidateText_spec (raw : JSValue) :
    ((∀ s, raw ≠ JSValue.str s) → ∃ m, trimAndValidateText raw = .err m) ∧
    (∀ s, raw = JSValue.str s →
      (jsLength (jsTrim s) = 0 → ∃ m, trimAndValidateText raw = .err m) ∧
      (jsLength (jsTrim s) > MESSAGE_MAX_LENGTH →
        ∃ m, trimAndValidateText raw = .err m) ∧
      (1 ≤ jsLength (jsTrim s) → jsLength (jsTrim s) ≤ MESSAGE_MAX_LENGTH →
        trimAndValidateText raw = .ok (jsTrim s)) ∧
      ((trimAndValidateText raw).isOk = true ↔
        1 ≤ jsLength (jsTrim s) ∧ jsLength (jsTrim s) ≤ MESSAGE_MAX_LENGTH) ∧
      (jsTrim s = s → 1 ≤ jsLength s → jsLength s ≤ MESSAGE_MAX_LENGTH →
        trimAndValidateText raw = .ok s)) := by
  constructor
  · intro h
    cases raw with
    | str s => exact absurd rfl (h s)
    | undefined => exact ⟨_, rfl⟩
    | null => exact ⟨_, rfl⟩
    | num n => exact ⟨_, rfl⟩
    | boolean b => exact ⟨_, rfl⟩
    | object => exact ⟨_, rfl⟩
  · rintro s rfl
    by_cases h0 : jsLength (jsTrim s) = 0
    · refine ⟨fun _ => ⟨"text cannot be empty", ?_⟩, fun h => absurd h0 (by omega),
        fun h _ => absurd h0 (by omega), ?_, fun he h1 _ => ?_⟩
      · simp [trimAndValidateText, h0]
      · simp [trimAndValidateText, VResult.isOk, h0]
      · rw [he] at h0
        exact absurd h1 (by omega)
    · by_cases hBig : jsLength (jsTrim s) > MESSAGE_MAX_LENGTH
      · refine ⟨fun h => absurd h h0, fun _ => ⟨"text must be <= 1000 characters", ?_⟩,
          fun _ h => absurd hBig (by omega), ?_, fun he _ h => ?_⟩
        · simp [trimAndValidateText, h0, hBig]
        · simp only [trimAndValidateText, if_neg h0, if_pos hBig, VResult.isOk,
            Bool.false_eq_true, false_iff, not_and]
          omega
        · rw [he] at hBig
          exact absurd h (by omega)
      · have hok : trimAndValidateText (JSValue.str s) = .ok (jsTrim s) := by
          simp [trimAndValidateText, h0, hBig]
        refine ⟨fun h => absurd h h0, fun h => absurd h (by omega), fun _ _ => hok,
          ?_, fun he _ _ => by rw [hok, he]⟩
        rw [hok]
        simp only [VResult.isOk, true_iff]
        omega

/-- C2 witness: the validator accepts `"  hi  "` and returns the trimmed
`"hi"`. -/
theorem trimAndValidateText_spec_witness :
    trimAndValidateText (JSValue.str "  hi  ") = .ok "hi" := by
  have h := ((trimAndValidateText_spec (JSValue.str "  hi  ")).2 "  hi  " rfl).2.2.1
    (by decide) (by decide)
  exact h.trans (by decide)

/-- C8: `trimAndValidateDisplayName` returns the fallback (without error)
when the input is absent (`undefined`/`null`) or trims to empty, errors on
other non-string inputs and on trimmed lengths above 64, and otherwise
returns exactly the trimmed name; an accepted already-trimmed name
round-trips unchanged. -/
theorem trimAndValidateDisplayName_spec (raw : JSValue) (fallback : String) :
    ((raw = JSValue.undefined ∨ raw = JSValue.null) →
      trimAndValidateDisplayName raw fallback = .ok fallback) ∧
    (∀ s, raw = JSValue.str s → jsLength (jsTrim s) = 0 →
      trimAndValidateDisplayName raw fallback = .ok fallback) ∧
    ((∀ s, raw ≠ JSValue.str s) → raw ≠ JSValue.undefined → raw ≠ JSValue.null →
      ∃ m, trimAndValidateDisplayName raw fallback = .err m) ∧
    (∀ s, raw = JSValue.str s → jsLength (jsTrim s) > NAME_MAX_LENGTH →
      ∃ m, trimAndValidateDisplayName raw fallback = .err m) ∧
    (∀ s, raw = JSValue.str s → 1 ≤ jsLength (jsTrim s) →
      jsLength (jsTrim s) ≤ NAME_MAX_LENGTH →
      trimAndValidateDisplayName raw fallback = .ok (jsTrim s)) ∧
    (∀ s, raw = JSValue.str s → jsTrim s = s → 1 ≤ jsLength s →
      jsLength s ≤ NAME_MAX_LENGTH →
      trimAndValidateDisplayName raw fallback = .ok s) := by
  refine ⟨?_, ?_, ?_, ?_, ?_, ?_⟩
  · rintro (rfl | rfl) <;> rfl
  · rintro s rfl h0
    simp [trimAndValidateDisplayName, h0]
  · intro h hu hn
    cases raw with
    | str s => exact absurd rfl (h s)
    | undefined => exact absurd rfl hu
    | null => exact absurd rfl hn
    | num n => exact ⟨_, rfl⟩
    | boolean b => exact ⟨_, rfl⟩
    | object => exact ⟨_, rfl⟩
  · rintro s rfl hBig
    refine ⟨"displayName must be <= 64 characters", ?_⟩
    have h0 : ¬ jsLength (jsTrim s) = 0 := by omega
    simp [trimAndValidateDisplayName, h0, hBig]
  · rintro s rfl h1 h64
    have h0 : ¬ jsLength (jsTrim s) = 0 := by omega
    have hb : ¬ NAME_MAX_LENGTH < jsLength (jsTrim s) := by omega
    simp [trimAndValidateDisplayName, h0, hb]
  · rintro s rfl he h1 h64
    have h0 : ¬ jsLength s = 0 := by omega
    have hb : ¬ NAME_MAX_LENGTH < jsLength s := by omega
    simp [trimAndValidateDisplayName, he, h0, hb]

/-- C8 witness: `" Bob "` with fallback `"u"` is accepted as `"Bob"`, and a
blank name falls back. -/
theorem trimAndValidateDisplayName_spec_witness :
    trimAndValidateDisplayName (JSValue.str " Bob ") "u" = .ok "Bob" ∧
    trimAndValidateDisplayName (JSValue.str "   ") "u" = .ok "u" := by
  constructor
  · have h := (trimAndValidateDisplayName_spec (JSValue.str " Bob ") "u").2.2.2.2.1
      " Bob " rfl (by decide) (by decide)
    exact h.trans (by decide)
  · exact (trimAndValidateDisplayName_spec (JSValue.str "   ") "u").2.1 "   " rfl
      (by decide)

theorem digitChar_isDigit {d : Nat} (h : d < 10) : (Nat.digitChar d).isDigit = true := by
  interval_cases d <;> decide

theorem natToCharsAux_isDigit :
    ∀ (fuel n : Nat), ∀ c ∈ natToCharsAux fuel n, c.isDigit = true := by
  intro fuel
  induction fuel with
  | zero =>
    intro n c hc
    simp [natToCharsAux] at hc
  | succ f ih =>
    intro n c hc
    by_cases h : n < 10
    · simp [natToCharsAux, h] at hc
      subst hc
      exact digitChar_isDigit h
    · simp [natToCharsAux, h] at hc
      rcases hc with hc | hc
      · exact ih _ _ hc
      · subst hc
        exact digitChar_isDigit (Nat.mod_lt _ (by omega))

theorem natToCharsAux_length :
    ∀ (fuel n k : Nat), 0 < k → n < 10 ^ k → (natToCharsAux fuel n).length ≤ k := by
  intro fuel
  induction fuel with
  | zero =>
    intro n k hk _
    simp [natToCharsAux]
  | succ f ih =>
    intro n k hk hn
    by_cases h : n < 10
    · simp [natToCharsAux, h]
      omega
    · simp only [natToCharsAux, if_neg h, List.length_append, List.length_cons,
        List.length_nil]

      rcases k with _ | k'
      · omega
      · rcases k' with _ | k''
        · norm_num at hn
          omega
        · have hmul : n < 10 ^ (k'' + 1) * 10 := by
            calc n < 10 ^ (k'' + 1 + 1) := hn
            _ = 10 ^ (k'' + 1) * 10 := pow_succ 10 (k'' + 1)
          have hdiv : n / 10 < 10 ^ (k'' + 1) := by omega
          have := ih (n / 10) (k'' + 1) (by omega) hdiv
          omega

/-- The `Adjective-Noun-DDDD` username shape (spec §8): an adjective and a
noun from the fixed pools joined by dashes with a 4-character all-digit
suffix. -/
def usernamePattern (u : String) : Prop :=
  ∃ adj noun d, adj ∈ adjectivePool ∧ noun ∈ nounPool ∧
    jsLength d = 4 ∧ (∀ c ∈ d.data, c.isDigit = true) ∧
    u = adj ++ "-" ++ noun ++ "-" ++ d

theorem natToString_length_le (m : Nat) (hm : m < 10000) :
    jsLength (natToString m) ≤ 4 := by
  have : m < 10 ^ 4 := by norm_num; omega
  exact natToCharsAux_length (m + 1) m 4 (by omega) this

theorem generateUsername_pattern (a n sfx : Nat) :
    usernamePattern (generateUsername a n sfx) := by
  have hL : jsLength (natToString (sfx % 10000)) ≤ 4 :=
    natToString_length_le _ (Nat.mod_lt _ (by omega))
  refine ⟨_, _, padStart (natToString (sfx % 10000)) 4 '0',
    List.get_mem _ _ _, List.get_mem _ _ _, ?_, ?_, rfl⟩
  · simp only [padStart, jsLength, List.length_append, List.length_replicate]
    have hL2 : (natToString (sfx % 10000)).data.length ≤ 4 := hL
    omega
  · intro c hc
    simp only [padStart, jsLength, String.data, List.mem_append] at hc
    rcases hc with hc | hc
    · rw [List.eq_of_mem_replicate hc]
      decide
    · exact natToCharsAux_isDigit _ _ _ hc

/-- C6: `ensureIdentity` returns the username recovered from a present,
non-empty, validly signed cookie unchanged and sets no new cookie; when the
cookie is absent or verification fails it mints a fresh
`Adjective-Noun-DDDD` username (components from the fixed pools, 4-digit
zero-padded suffix) and sets exactly one cookie bound to that username,
treating verification failure identically to absence. -/
theorem ensureIdentity_spec (unsign : String → UnsignResult) (cookie : Option String)
    (a n sfx : Nat) :
    (∀ c v, cookie = some c → 0 < jsLength c → unsign c = ⟨true, some v⟩ →
      0 < jsLength v → ensureIdentity unsign cookie a n sfx = (v, none)) ∧
    ((cookie = none ∨ ∃ c, cookie = some c ∧ (unsign c).valid = false) →
      ensureIdentity unsign cookie a n sfx =
        (generateUsername a n sfx, some (generateUsername a n sfx))) ∧
    usernamePattern (generateUsername a n sfx) := by
  refine ⟨?_, ?_, generateUsername_pattern a n sfx⟩
  · rintro c v rfl hc hu hv
    simp [ensureIdentity, hc, hu, hv]
  · rintro (rfl | ⟨c, rfl, hval⟩)
    · rfl
    · by_cases hc : jsLength c > 0
      · simp [ensureIdentity, hc, hval]
      · simp [ensureIdentity, hc]

/-- C6 witness: with no cookie a fresh patterned username is minted and
issued; with a valid cookie its value is returned and nothing is issued. -/
theorem ensureIdentity_spec_witness :
    ensureIdentity (fun _ => ⟨false, none⟩) none 1 5 482 =
      ("Swift-Otter-0482", some "Swift-Otter-0482") ∧
    ensureIdentity (fun c => ⟨true, some c⟩) (some "Kind-Fox-0001") 0 0 0 =
      ("Kind-Fox-0001", none) := by
  constructor
  · exact ((ensureIdentity_spec (fun _ => ⟨false, none⟩) none 1 5 482).2.1
      (Or.inl rfl)).trans (by decide)
  · exact (ensureIdentity_spec (fun c => ⟨true, some c⟩) (some "Kind-Fox-0001") 0 0 0).1
      "Kind-Fox-0001" "Kind-Fox-0001" rfl (by decide) rfl (by decide)

/-- C9 (implicit): the existing identity is returned (no cookie issued) iff
the cookie is present, non-empty, verifies, and unsigns to a non-empty
value; an empty-string cookie, or a valid cookie whose unsigned value is
empty, is treated exactly like an absent cookie — a fresh username is
minted and a new cookie set. -/
theorem ensureIdentity_fresh_conditions (unsign : String → UnsignResult)
    (cookie : Option String) (a n sfx : Nat) :
    ((ensureIdentity unsign cookie a n sfx).2 = none ↔
      ∃ c v, cookie = some c ∧ 0 < jsLength c ∧ (unsign c).valid = true ∧
        (unsign c).value = some v ∧ 0 < jsLength v) ∧
    (cookie = some "" → ensureIdentity unsign cookie a n sfx =
      (generateUsername a n sfx, some (generateUsername a n sfx))) ∧
    (∀ c, cookie = some c → (unsign c).valid = true → (unsign c).value = some "" →
      ensureIdentity unsign cookie a n sfx =
        (generateUsername a n sfx, some (generateUsername a n sfx))) := by
  refine ⟨?_, ?_, ?_⟩
  · cases cookie with
    | none => simp [ensureIdentity]
    | some c =>
      by_cases hc : jsLength c > 0
      · cases hval : (unsign c).valid
        · simp [ensureIdentity, hc, hval]
        · cases hv : (unsign c).value with
          | none => simp [ensureIdentity, hc, hval, hv]
          | some v =>
            by_cases hvl : jsLength v > 0
            · simp [ensureIdentity, hc, hval, hv, hvl]
            · simp [ensureIdentity, hc, hval, hv, hvl]
      · simp [ensureIdentity, hc]
  · rintro rfl
    simp [ensureIdentity, jsLength]
  · rintro c rfl hval hv
    by_cases hc : jsLength c > 0
    · simp [ensureIdentity, hc, hval, hv]
      decide
    · simp [ensureIdentity, hc]

/-- C9 witness: an empty-string cookie mints a fresh identity and issues a
cookie for it. -/
theorem ensureIdentity_fresh_conditions_witness :
    ensureIdentity (fun c => ⟨true, some c⟩) (some "") 3 4 5 =
      ("Curious-Leaf-0005", some "Curious-Leaf-0005") := by
  exact ((ensureIdentity_fresh_conditions (fun c => ⟨true, some c⟩) (some "") 3 4 5).2.1
    rfl).trans (by decide)

theorem RateLimiter.check_state_other {K : Type} [DecidableEq K] (rl : RateLimiter)
    (s : RLState K) (k k' : K) (now : Nat) (hne : k' ≠ k) :
    (rl.check s k now).2 k' = s k' := by
  cases h : s k with
  | none => simp [RateLimiter.check, h, RLState.set, hne]
  | some e =>
    simp only [RateLimiter.check, h]
    split_ifs <;> simp [RLState.set, hne]

theorem RateLimiter.check_fst_congr {K : Type} [DecidableEq K] (rl : RateLimiter)
    (s₁ s₂ : RLState K) (k : K) (now : Nat) (h : s₁ k = s₂ k) :
    (rl.check s₁ k now).1 = (rl.check s₂ k now).1 := by
  unfold RateLimiter.check
  rw [h]
  cases s₂ k with
  | none => rfl
  | some e =>
    dsimp only
    split_ifs <;> rfl

theorem RateLimiter.run_in_window {K : Type} [DecidableEq K] (rl : RateLimiter) (k : K) :
    ∀ (ts : List Nat) (s : RLState K) (t0 c : Nat),
      s k = some ⟨t0, c⟩ →
      (∀ t ∈ ts, t < t0 + rl.windowMs) →
      (rl.run s (ts.map fun t => (k, t))).1 =
        (List.range ts.length).map (fun i => decide (c + i < rl.maxCalls)) := by
  intro ts
  induction ts with
  | nil =>
    intro s t0 c hs hts
    rfl
  | cons t rest ih =>
    intro s t0 c hs hts
    have ht : ¬ t0 + rl.windowMs ≤ t := by
      have := hts t (by simp)
      omega
    have hrest : ∀ u ∈ rest, u < t0 + rl.windowMs := fun u hu => hts u (by simp [hu])
    rw [List.map_cons]
    by_cases hcN : c < rl.maxCalls
    · have hstep : rl.check s k t = (true, s.set k ⟨t0, c + 1⟩) := by
        simp only [RateLimiter.check, hs]
        rw [if_neg ht, if_pos hcN]
      have hk : (s.set k ⟨t0, c + 1⟩) k = some ⟨t0, c + 1⟩ := by
        simp [RLState.set]
      simp only [RateLimiter.run, hstep]
      rw [ih _ _ _ hk hrest, List.length_cons, List.range_succ_eq_map, List.map_cons,
        List.map_map]
      congr 1
      · simp [hcN]
      · refine List.map_congr_left fun i _ => ?_
        exact decide_eq_decide.mpr (by omega)
    · have hstep : rl.check s k t = (false, s) := by
        simp only [RateLimiter.check, hs]
        rw [if_neg ht, if_neg hcN]
      simp only [RateLimiter.run, hstep]
      rw [ih _ _ _ hs hrest, List.length_cons, List.range_succ_eq_map, List.map_cons,
        List.map_map]
      congr 1
      · simp [hcN]
      · refine List.map_congr_left fun i _ => ?_
        exact decide_eq_decide.mpr (by omega)

/-- C1: fixed-window rate limiting (modelled from the spec, the
`rate-limit.ts` source being absent). With cap `N ≥ 1`: starting from a key
with no window, a run of calls for that key whose later times all fall
within `windowMs` of the first admits exactly the first `N` calls and
denies every later one (in particular the `(N+1)`th); a call at or after
`windowStart + windowMs` resets the key to a fresh window with count 1 and
is admitted; and a check for one key neither changes another key's stored
window nor the admission verdict of a subsequent check for another key. -/
theorem rateLimiter_spec {K : Type} [DecidableEq K] (rl : RateLimiter) :
    (∀ (s : RLState K) (k : K) (t0 : Nat) (rest : List Nat),
      1 ≤ rl.maxCalls → s k = none →
      (∀ t ∈ rest, t < t0 + rl.windowMs) →
      (rl.run s ((t0 :: rest).map fun t => (k, t))).1 =
        (List.range (rest.length + 1)).map (fun i => decide (i < rl.maxCalls))) ∧
    (∀ (s : RLState K) (k : K) (e : RateWindow) (now : Nat),
      s k = some e → e.windowStart + rl.windowMs ≤ now →
      rl.check s k now = (true, s.set k ⟨now, 1⟩)) ∧
    (∀ (s : RLState K) (k k' : K) (now now' : Nat), k' ≠ k →
      (rl.check s k now).2 k' = s k' ∧
      (rl.check (rl.check s k now).2 k' now').1 = (rl.check s k' now').1) := by
  refine ⟨?_, ?_, ?_⟩
  · intro s k t0 rest hN hs hrest
    have hstep : rl.check s k t0 = (true, s.set k ⟨t0, 1⟩) := by
      simp [RateLimiter.check, hs]
    have hk : (s.set k ⟨t0, 1⟩) k = some ⟨t0, 1⟩ := by
      simp [RLState.set]
    rw [List.map_cons]
    simp only [RateLimiter.run, hstep]
    rw [RateLimiter.run_in_window rl k rest _ t0 1 hk hrest,
      List.range_succ_eq_map, List.map_cons, List.map_map]
    congr 1
    · simp [hN]
      omega
    · refine List.map_congr_left fun i _ => ?_
      exact decide_eq_decide.mpr (by omega)
  · intro s k e now hs hw
    simp only [RateLimiter.check, hs]
    rw [if_pos hw]
  · intro s k k' now now' hne
    refine ⟨RateLimiter.check_state_other rl s k k' now hne, ?_⟩
    exact RateLimiter.check_fst_congr rl _ _ k' now'
      (RateLimiter.check_state_other rl s k k' now hne)

/-- C1 witness: with cap 2 and a 10000 ms window, three calls for key 0 at
times 0, 1, 2 yield admit, admit, deny. -/
theorem rateLimiter_spec_witness :
    (RateLimiter.run ⟨10000, 2⟩ (RLState.empty Nat) [(0, 0), (0, 1), (0, 2)]).1 =
      [true, true, false] := by
  have h := (rateLimiter_spec (K := Nat) ⟨10000, 2⟩).1 (RLState.empty Nat) 0 0 [1, 2]
    (by decide) rfl (by decide)
  exact h.trans (by decide)

section PostHandler

variable (rl : RateLimiter) (unsign : String → UnsignResult) (cookie : Option String)
  (a n sfx : Nat) (body : ReqBody) (ip : Option String) (uuid : String) (now : Nat)
  (store : StoreOutcome) (s : RLState String)

theorem postMessages_textErr_eq (m : String)
    (h : trimAndValidateText body.textField = .err m) :
    postMessages rl unsign cookie a n sfx body ip uuid now store s =
      { status := 400, errorKind := some "validation_error", errorMessage := some m,
        dto := none, setCookie := (ensureIdentity unsign cookie a n sfx).2, events := [],
        rlState := s, trace := [.identity, .validation] } := by
  simp [postMessages, h]

theorem postMessages_nameErr_eq (text m : String)
    (hT : trimAndValidateText body.textField = .ok text)
    (hD : trimAndValidateDisplayName body.displayNameField
      (ensureIdentity unsign cookie a n sfx).1 = .err m) :
    postMessages rl unsign cookie a n sfx body ip uuid now store s =
      { status := 400, errorKind := some "validation_error", errorMessage := some m,
        dto := none, setCookie := (ensureIdentity unsign cookie a n sfx).2, events := [],
        rlState := s, trace := [.identity, .validation] } := by
  simp [postMessages, hT, hD]

theorem postMessages_denied_eq (text dn : String)
    (hT : trimAndValidateText body.textField = .ok text)
    (hD : trimAndValidateDisplayName body.displayNameField
      (ensureIdentity unsign cookie a n sfx).1 = .ok dn)
    (hC : (rl.check s
      (getClientKey (ip.getD "unknown") (ensureIdentity unsign cookie a n sfx).1) now).1
        = false) :
    postMessages rl unsign cookie a n sfx body ip uuid now store s =
      { status := 429, errorKind := some "rate_limit_exceeded",
        errorMessage := some "Too many messages, slow down.",
        dto := none, setCookie := (ensureIdentity unsign cookie a n sfx).2, events := [],
        rlState := (rl.check s
          (getClientKey (ip.getD "unknown") (ensureIdentity unsign cookie a n sfx).1)
            now).2,
        trace := [.identity, .validation, .rateLimit] } := by
  simp [postMessages, hT, hD, hC]

theorem postMessages_storeFail_eq (text dn : String)
    (hT : trimAndValidateText body.textField = .ok text)
    (hD : trimAndValidateDisplayName body.displayNameField
      (ensureIdentity unsign cookie a n sfx).1 = .ok dn)
    (hC : (rl.check s
      (getClientKey (ip.getD "unknown") (ensureIdentity unsign cookie a n sfx).1) now).1
        = true)
    (hS : store = .failure) :
    postMessages rl unsign cookie a n sfx body ip uuid now store s =
      { status := 500, errorKind := some "server_error",
        errorMessage := some "Could not persist message",
        dto := none, setCookie := (ensureIdentity unsign cookie a n sfx).2, events := [],
        rlState := (rl.check s
          (getClientKey (ip.getD "unknown") (ensureIdentity unsign cookie a n sfx).1)
            now).2,
        trace := [.identity, .validation, .rateLimit, .append] } := by
  simp [postMessages, hT, hD, hC, hS]

theorem postMessages_created_eq (text dn : String) (createdAt : Nat)
    (hT : trimAndValidateText body.textField = .ok text)
    (hD : trimAndValidateDisplayName body.displayNameField
      (ensureIdentity unsign cookie a n sfx).1 = .ok dn)
    (hC : (rl.check s
      (getClientKey (ip.getD "unknown") (ensureIdentity unsign cookie a n sfx).1) now).1
        = true)
    (hS : store = .ok createdAt) :
    postMessages rl unsign cookie a n sfx body ip uuid now store s =
      { status := 201, errorKind := none, errorMessage := none,
        dto :=
          some (MessageDTO.mk uuid text (ensureIdentity unsign cookie a n sfx).1 dn createdAt),
        setCookie := (ensureIdentity unsign cookie a n sfx).2,
        events :=
          [MessageDTO.mk uuid text (ensureIdentity unsign cookie a n sfx).1 dn createdAt],
        rlState := (rl.check s
          (getClientKey (ip.getD "unknown") (ensureIdentity unsign cookie a n sfx).1)
            now).2,
        trace := [.identity, .validation, .rateLimit, .append, .publish] } := by
  simp [postMessages, hT, hD, hC, hS, normalizeMessage]

/-- C3: the POST /messages pipeline runs identity resolution, validation,
rate-limit admission, durable append, publish in that order, short-circuiting
at the first failing stage: a validation failure exits before the rate
limiter is consulted (the limiter state is untouched) and before any store
write, and an admission denial exits before any store write or publish, with
no events emitted in either case. -/
theorem postMessages_pipeline_order (r : PostResult String)
    (hr : r = postMessages rl unsign cookie a n sfx body ip uuid now store s) :
    (∀ m, trimAndValidateText body.textField = .err m →
      r.trace = [.identity, .validation] ∧ r.rlState = s ∧ r.events = [] ∧
      Stage.rateLimit ∉ r.trace ∧ Stage.append ∉ r.trace ∧ Stage.publish ∉ r.trace) ∧
    (∀ text m, trimAndValidateText body.textField = .ok text →
      trimAndValidateDisplayName body.displayNameField
        (ensureIdentity unsign cookie a n sfx).1 = .err m →
      r.trace = [.identity, .validation] ∧ r.rlState = s ∧ r.events = [] ∧
      Stage.rateLimit ∉ r.trace ∧ Stage.append ∉ r.trace ∧ Stage.publish ∉ r.trace) ∧
    (∀ text dn, trimAndValidateText body.textField = .ok text →
      trimAndValidateDisplayName body.displayNameField
        (ensureIdentity unsign cookie a n sfx).1 = .ok dn →
      (rl.check s
        (getClientKey (ip.getD "unknown") (ensureIdentity unsign cookie a n sfx).1)
          now).1 = false →
      r.trace = [.identity, .validation, .rateLimit] ∧ r.events = [] ∧
      Stage.append ∉ r.trace ∧ Stage.publish ∉ r.trace) ∧
    (r.trace = [.identity, .validation] ∨
      r.trace = [.identity, .validation, .rateLimit] ∨
      r.trace = [.identity, .validation, .rateLimit, .append] ∨
      r.trace = [.identity, .validation, .rateLimit, .append, .publish]) := by
  subst hr
  refine ⟨?_, ?_, ?_, ?_⟩
  · intro m h
    rw [postMessages_textErr_eq rl unsign cookie a n sfx body ip uuid now store s m h]
    exact ⟨rfl, rfl, rfl, by simp, by simp, by simp⟩
  · intro text m hT hD
    rw [postMessages_nameErr_eq rl unsign cookie a n sfx body ip uuid now store s text m
      hT hD]
    exact ⟨rfl, rfl, rfl, by simp, by simp, by simp⟩
  · intro text dn hT hD hC
    rw [postMessages_denied_eq rl unsign cookie a n sfx body ip uuid now store s text dn
      hT hD hC]
    exact ⟨rfl, rfl, by simp, by simp⟩
  · cases hT : trimAndValidateText body.textField with
    | err m =>
      exact Or.inl (by
        rw [postMessages_textErr_eq rl unsign cookie a n sfx body ip uuid now store s m hT])
    | ok text =>
      cases hD : trimAndValidateDisplayName body.displayNameField
          (ensureIdentity unsign cookie a n sfx).1 with
      | err m =>
        exact Or.inl (by
          rw [postMessages_nameErr_eq rl unsign cookie a n sfx body ip uuid now store s
            text m hT hD])
      | ok dn =>
        cases hC : (rl.check s
            (getClientKey (ip.getD "unknown") (ensureIdentity unsign cookie a n sfx).1)
              now).1 with
        | false =>
          exact Or.inr (Or.inl (by
            rw [postMessages_denied_eq rl unsign cookie a n sfx body ip uuid now store s
              text dn hT hD hC]))
        | true =>
          cases hS : store with
          | failure =>
            exact Or.inr (Or.inr (Or.inl (by
              rw [postMessages_storeFail_eq rl unsign cookie a n sfx body ip uuid now
                StoreOutcome.failure s text dn hT hD hC rfl])))
          | ok t =>
            exact Or.inr (Or.inr (Or.inr (by
              rw [postMessages_created_eq rl unsign cookie a n sfx body ip uuid now
                (StoreOutcome.ok t) s text dn t hT hD hC rfl])))

/-- C3 witness: a post whose text trims to empty stops after validation with
the limiter state untouched and no events. -/
theorem postMessages_pipeline_order_witness :
    (postMessages ⟨10000, 10⟩ (fun _ => ⟨false, none⟩) none 0 0 0
        (.obj (.str "") .undefined) none "u1" 0 .failure (RLState.empty String)).trace =
      [.identity, .validation] :=
  ((postMessages_pipeline_order ⟨10000, 10⟩ (fun _ => ⟨false, none⟩) none 0 0 0
      (.obj (.str "") .undefined) none "u1" 0 .failure (RLState.empty String) _ rfl).1
    "text cannot be empty" (by decide)).1

/-- C4: a `messages:new` event is emitted iff the durable append was reached
and succeeded; a failed append publishes nothing and yields a server error,
and a successful append emits exactly one event whose payload equals the
201 response body. -/
theorem postMessages_publish_iff_persisted (r : PostResult String)
    (hr : r = postMessages rl unsign cookie a n sfx body ip uuid now store s) :
    (r.events ≠ [] ↔ (Stage.append ∈ r.trace ∧ store ≠ .failure)) ∧
    (Stage.append ∈ r.trace → store = .failure → r.events = [] ∧ r.status = 500) ∧
    (∀ t, Stage.append ∈ r.trace → store = .ok t →
      ∃ p, r.events = [p] ∧ r.status = 201 ∧ r.dto = some p) := by
  subst hr
  cases hT : trimAndValidateText body.textField with
  | err m =>
    rw [postMessages_textErr_eq rl unsign cookie a n sfx body ip uuid now store s m hT]
    refine ⟨by simp, by simp, by simp⟩
  | ok text =>
    cases hD : trimAndValidateDisplayName body.displayNameField
        (ensureIdentity unsign cookie a n sfx).1 with
    | err m =>
      rw [postMessages_nameErr_eq rl unsign cookie a n sfx body ip uuid now store s
        text m hT hD]
      refine ⟨by simp, by simp, by simp⟩
    | ok dn =>
      cases hC : (rl.check s
          (getClientKey (ip.getD "unknown") (ensureIdentity unsign cookie a n sfx).1)
            now).1 with
      | false =>
        rw [postMessages_denied_eq rl unsign cookie a n sfx body ip uuid now store s
          text dn hT hD hC]
        refine ⟨by simp, by simp, by simp⟩
      | true =>
        cases store with
        | failure =>
          rw [postMessages_storeFail_eq rl unsign cookie a n sfx body ip uuid now
            StoreOutcome.failure s text dn hT hD hC rfl]
          refine ⟨by simp, by simp, by simp⟩
        | ok t =>
          rw [postMessages_created_eq rl unsign cookie a n sfx body ip uuid now
            (StoreOutcome.ok t) s text dn t hT hD hC rfl]
          refine ⟨by simp, by simp, ?_⟩
          intro u _ hu
          exact ⟨_, rfl, rfl, by simp [StoreOutcome.ok.injEq] at hu; rw [hu]⟩

/-- C4 witness: a successful post emits exactly one event equal to the 201
response body. -/
theorem postMessages_publish_iff_persisted_witness :
    ∃ p, (postMessages ⟨10000, 10⟩ (fun _ => ⟨false, none⟩) none 0 0 0
        (.obj (.str "hello") .undefined) none "u1" 0 (.ok 5)
          (RLState.empty String)).events = [p] ∧
      (postMessages ⟨10000, 10⟩ (fun _ => ⟨false, none⟩) none 0 0 0
        (.obj (.str "hello") .undefined) none "u1" 0 (.ok 5)
          (RLState.empty String)).status = 201 ∧
      (postMessages ⟨10000, 10⟩ (fun _ => ⟨false, none⟩) none 0 0 0
        (.obj (.str "hello") .undefined) none "u1" 0 (.ok 5)
          (RLState.empty String)).dto = some p :=
  (postMessages_publish_iff_persisted ⟨10000, 10⟩ (fun _ => ⟨false, none⟩) none 0 0 0
      (.obj (.str "hello") .undefined) none "u1" 0 (.ok 5) (RLState.empty String)
      _ rfl).2.2 5 (by decide) rfl

/-- C5: every POST /messages response is exactly one of 201 (with DTO), 400
`validation_error` (text or display-name invalid), 429
`rate_limit_exceeded` (admission denied), or 500 `server_error` with a
generic message (append failed); every error response carries a
machine-readable kind and a human message. -/
theorem postMessages_responses (r : PostResult String)
    (hr : r = postMessages rl unsign cookie a n sfx body ip uuid now store s) :
    (∀ m, trimAndValidateText body.textField = .err m →
      r.status = 400 ∧ r.errorKind = some "validation_error" ∧
      r.errorMessage = some m) ∧
    (∀ text m, trimAndValidateText body.textField = .ok text →
      trimAndValidateDisplayName body.displayNameField
        (ensureIdentity unsign cookie a n sfx).1 = .err m →
      r.status = 400 ∧ r.errorKind = some "validation_error" ∧
      r.errorMessage = some m) ∧
    (∀ text dn, trimAndValidateText body.textField = .ok text →
      trimAndValidateDisplayName body.displayNameField
        (ensureIdentity unsign cookie a n sfx).1 = .ok dn →
      (rl.check s
        (getClientKey (ip.getD "unknown") (ensureIdentity unsign cookie a n sfx).1)
          now).1 = false →
      r.status = 429 ∧ r.errorKind = some "rate_limit_exceeded" ∧
      r.errorMessage = some "Too many messages, slow down.") ∧
    (∀ text dn, trimAndValidateText body.textField = .ok text →
      trimAndValidateDisplayName body.displayNameField
        (ensureIdentity unsign cookie a n sfx).1 = .ok dn →
      (rl.check s
        (getClientKey (ip.getD "unknown") (ensureIdentity unsign cookie a n sfx).1)
          now).1 = true →
      store = .failure →
      r.status = 500 ∧ r.errorKind = some "server_error" ∧
      r.errorMessage = some "Could not persist message" ∧ r.dto = none) ∧
    (∀ text dn t, trimAndValidateText body.textField = .ok text →
      trimAndValidateDisplayName body.displayNameField
        (ensureIdentity unsign cookie a n sfx).1 = .ok dn →
      (rl.check s
        (getClientKey (ip.getD "unknown") (ensureIdentity unsign cookie a n sfx).1)
          now).1 = true →
      store = .ok t →
      r.status = 201 ∧ r.errorKind = none ∧ ∃ p, r.dto = some p) ∧
    (r.status = 201 ∨ r.status = 400 ∨ r.status = 429 ∨ r.status = 500) ∧
    (r.status ≠ 201 → ∃ km m, r.errorKind = some km ∧ r.errorMessage = some m) := by
  subst hr
  refine ⟨?_, ?_, ?_, ?_, ?_, ?_, ?_⟩
  · intro m h
    rw [postMessages_textErr_eq rl unsign cookie a n sfx body ip uuid now store s m h]
    exact ⟨rfl, rfl, rfl⟩
  · intro text m hT hD
    rw [postMessages_nameErr_eq rl unsign cookie a n sfx body ip uuid now store s
      text m hT hD]
    exact ⟨rfl, rfl, rfl⟩
  · intro text dn hT hD hC
    rw [postMessages_denied_eq rl unsign cookie a n sfx body ip uuid now store s
      text dn hT hD hC]
    exact ⟨rfl, rfl, rfl⟩
  · intro text dn hT hD hC hS
    subst hS
    rw [postMessages_storeFail_eq rl unsign cookie a n sfx body ip uuid now
      StoreOutcome.failure s text dn hT hD hC rfl]
    exact ⟨rfl, rfl, rfl, rfl⟩
  · intro text dn t hT hD hC hS
    subst hS
    rw [postMessages_created_eq rl unsign cookie a n sfx body ip uuid now
      (StoreOutcome.ok t) s text dn t hT hD hC rfl]
    exact ⟨rfl, rfl, _, rfl⟩
  · cases hT : trimAndValidateText body.textField with
    | err m =>
      rw [postMessages_textErr_eq rl unsign cookie a n sfx body ip uuid now store s m hT]
      exact Or.inr (Or.inl rfl)
    | ok text =>
      cases hD : trimAndValidateDisplayName body.displayNameField
          (ensureIdentity unsign cookie a n sfx).1 with
      | err m =>
        rw [postMessages_nameErr_eq rl unsign cookie a n sfx body ip uuid now store s
          text m hT hD]
        exact Or.inr (Or.inl rfl)
      | ok dn =>
        cases hC : (rl.check s
            (getClientKey (ip.getD "unknown") (ensureIdentity unsign cookie a n sfx).1)
              now).1 with
        | false =>
          rw [postMessages_denied_eq rl unsign cookie a n sfx body ip uuid now store s
            text dn hT hD hC]
          exact Or.inr (Or.inr (Or.inl rfl))
        | true =>
          cases store with
          | failure =>
            rw [postMessages_storeFail_eq rl unsign cookie a n sfx body ip uuid now
              StoreOutcome.failure s text dn hT hD hC rfl]
            exact Or.inr (Or.inr (Or.inr rfl))
          | ok t =>
            rw [postMessages_created_eq rl unsign cookie a n sfx body ip uuid now
              (StoreOutcome.ok t) s text dn t hT hD hC rfl]
            exact Or.inl rfl
  · cases hT : trimAndValidateText body.textField with
    | err m =>
      rw [postMessages_textErr_eq rl unsign cookie a n sfx body ip uuid now store s m hT]
      exact fun _ => ⟨_, _, rfl, rfl⟩
    | ok text =>
      cases hD : trimAndValidateDisplayName body.displayNameField
          (ensureIdentity unsign cookie a n sfx).1 with
      | err m =>
        rw [postMessages_nameErr_eq rl unsign cookie a n sfx body ip uuid now store s
          text m hT hD]
        exact fun _ => ⟨_, _, rfl, rfl⟩
      | ok dn =>
        cases hC : (rl.check s
            (getClientKey (ip.getD "unknown") (ensureIdentity unsign cookie a n sfx).1)
              now).1 with
        | false =>
          rw [postMessages_denied_eq rl unsign cookie a n sfx body ip uuid now store s
            text dn hT hD hC]
          exact fun _ => ⟨_, _, rfl, rfl⟩
        | true =>
          cases store with
          | failure =>
            rw [postMessages_storeFail_eq rl unsign cookie a n sfx body ip uuid now
              StoreOutcome.failure s text dn hT hD hC rfl]
            exact fun _ => ⟨_, _, rfl, rfl⟩
          | ok t =>
            rw [postMessages_created_eq rl unsign cookie a n sfx body ip uuid now
              (StoreOutcome.ok t) s text dn t hT hD hC rfl]
            exact fun h => absurd rfl h

/-- C5 witness: a post with valid text whose append fails answers 500 with
the generic server-error kind and message. -/
theorem postMessages_responses_witness :
    (postMessages ⟨10000, 10⟩ (fun _ => ⟨false, none⟩) none 0 0 0
        (.obj (.str "hello") .undefined) none "u1" 0 .failure
          (RLState.empty String)).status = 500 ∧
    (postMessages ⟨10000, 10⟩ (fun _ => ⟨false, none⟩) none 0 0 0
        (.obj (.str "hello") .undefined) none "u1" 0 .failure
          (RLState.empty String)).errorKind = some "server_error" ∧
    (postMessages ⟨10000, 10⟩ (fun _ => ⟨false, none⟩) none 0 0 0
        (.obj (.str "hello") .undefined) none "u1" 0 .failure
          (RLState.empty String)).errorMessage = some "Could not persist message" ∧
    (postMessages ⟨10000, 10⟩ (fun _ => ⟨false, none⟩) none 0 0 0
        (.obj (.str "hello") .undefined) none "u1" 0 .failure
          (RLState.empty String)).dto = none :=
  (postMessages_responses ⟨10000, 10⟩ (fun _ => ⟨false, none⟩) none 0 0 0
      (.obj (.str "hello") .undefined) none "u1" 0 .failure (RLState.empty String)
      _ rfl).2.2.2.1 "hello" "Silent-River-0000" (by decide) (by decide) (by decide) rfl

/-- C10 (implicit): a POST whose body is missing (or not an object with a
`text` field, so that optional access yields `undefined`) is answered by the
handler itself with 400 `validation_error` ("text must be a string") — no
crash, no fallback 500, no events, and an untouched limiter state. -/
theorem postMessages_missing_body (r : PostResult String)
    (hr : r = postMessages rl unsign cookie a n sfx body ip uuid now store s)
    (hb : body = .missing ∨ ∃ d, body = .obj .undefined d) :
    r.status = 400 ∧ r.errorKind = some "validation_error" ∧
    r.errorMessage = some "text must be a string" ∧ r.events = [] ∧
    r.rlState = s ∧ r.trace = [.identity, .validation] := by
  subst hr
  have ht : body.textField = .undefined := by
    rcases hb with rfl | ⟨d, rfl⟩ <;> rfl
  have herr : trimAndValidateText body.textField = .err "text must be a string" := by
    rw [ht]
    rfl
  rw [postMessages_textErr_eq rl unsign cookie a n sfx body ip uuid now store s
    "text must be a string" herr]
  exact ⟨rfl, rfl, rfl, rfl, rfl, rfl⟩

/-- C10 witness: a fully missing body yields the 400 validation error with
no side effects. -/
theorem postMessages_missing_body_witness :
    (postMessages ⟨10000, 10⟩ (fun _ => ⟨false, none⟩) none 0 0 0 .missing none "u1" 0
        (.ok 5) (RLState.empty String)).status = 400 ∧
    (postMessages ⟨10000, 10⟩ (fun _ => ⟨false, none⟩) none 0 0 0 .missing none "u1" 0
        (.ok 5) (RLState.empty String)).errorMessage = some "text must be a string" ∧
    (postMessages ⟨10000, 10⟩ (fun _ => ⟨false, none⟩) none 0 0 0 .missing none "u1" 0
        (.ok 5) (RLState.empty String)).events = [] := by
  have h := postMessages_missing_body ⟨10000, 10⟩ (fun _ => ⟨false, none⟩) none 0 0 0
    .missing none "u1" 0 (.ok 5) (RLState.empty String) _ rfl (Or.inl rfl)
  exact ⟨h.1, h.2.2.1, h.2.2.2.1⟩

end PostHandler

/-- C7: `GET /messages` returns at most `min(200, max(1, N))` messages
(default 200 when the limit is absent or unparsable, so `limit=500` clamps
to 200), and the returned sequence is the most recent rows of the table in
oldest-first (ascending `createdAt`) order. -/
theorem getMessages_spec (db : List DbMessage) (q : Option String) :
    (getMessages db q).length ≤ computeLimit q ∧
    1 ≤ computeLimit q ∧
    computeLimit q ≤ HISTORY_MAX_LIMIT ∧
    computeLimit none = HISTORY_MAX_LIMIT ∧
    (∀ qs, q = some qs → parseIntJS qs = none → computeLimit q = HISTORY_MAX_LIMIT) ∧
    (∀ qs N, q = some qs → parseIntJS qs = some N →
      (computeLimit q : Int) = min 200 (max 1 N)) ∧
    computeLimit (some "500") = 200 ∧
    List.Sorted (fun x y : MessageDTO => x.createdAt ≤ y.createdAt) (getMessages db q) ∧
    (∀ x ∈ recentDesc db (computeLimit q),
      ∀ y ∈ (List.insertionSort (fun u v => v.createdAt ≤ u.createdAt) db).drop
        (computeLimit q), y.createdAt ≤ x.createdAt) ∧
    (∀ p ∈ getMessages db q, ∃ m, m ∈ db ∧ p = normalizeMessage m) := by
  haveI hTot : IsTotal DbMessage (fun x y => y.createdAt ≤ x.createdAt) :=
    ⟨fun a b => le_total b.createdAt a.createdAt⟩
  haveI hTrans : IsTrans DbMessage (fun x y => y.createdAt ≤ x.createdAt) :=
    ⟨fun a b c hab hbc => le_trans hbc hab⟩
  have hsorted : List.Sorted (fun x y : DbMessage => y.createdAt ≤ x.createdAt)
      (List.insertionSort (fun u v => v.createdAt ≤ u.createdAt) db) :=
    List.sorted_insertionSort _ db
  refine ⟨?_, ?_, ?_, by decide, ?_, ?_, by decide, ?_, ?_, ?_⟩
  · simp only [getMessages, List.length_map, List.length_reverse, recentDesc,
      List.length_take]
    omega
  · cases h : parseIntJS (q.getD (natToString HISTORY_MAX_LIMIT)) with
    | none =>
      simp only [computeLimit, h]
      decide
    | some r =>
      simp only [computeLimit, h]
      simp only [HISTORY_MAX_LIMIT]
      omega
  · cases h : parseIntJS (q.getD (natToString HISTORY_MAX_LIMIT)) with
    | none =>
      simp only [computeLimit, h]
      decide
    | some r =>
      simp only [computeLimit, h]
      simp only [HISTORY_MAX_LIMIT]
      omega
  · rintro qs rfl h
    simp only [computeLimit, Option.getD_some, h]
  · rintro qs N rfl h
    simp only [computeLimit, Option.getD_some, h]
    simp only [HISTORY_MAX_LIMIT]
    omega
  · have h1 : List.Pairwise (fun x y : DbMessage => y.createdAt ≤ x.createdAt)
        (recentDesc db (computeLimit q)) :=
      List.Pairwise.sublist (List.take_sublist _ _) hsorted
    have h2 : List.Pairwise (fun x y : DbMessage => x.createdAt ≤ y.createdAt)
        (recentDesc db (computeLimit q)).reverse :=
      List.pairwise_reverse.mpr h1
    exact List.pairwise_map.mpr h2
  · intro x hx y hy
    exact hsorted.rel_of_mem_take_of_mem_drop hx hy
  · intro p hp
    simp only [getMessages, List.mem_map, List.mem_reverse] at hp
    obtain ⟨m, hm, rfl⟩ := hp
    refine ⟨m, ?_, rfl⟩
    have : m ∈ List.insertionSort (fun u v => v.createdAt ≤ u.createdAt) db :=
      List.take_subset _ _ hm
    exact (List.mem_insertionSort _).mp this

/-- C7 witness: a parsed `limit=500` clamps to 200. -/
theorem getMessages_spec_witness : (computeLimit (some "500") : Int) = 200 := by
  have h := (getMessages_spec [] (some "500")).2.2.2.2.2.1 "500" 500 rfl (by decide)
  exact h.trans (by decide)

end Chat
